import Mathlib

/-!
Verification of the Black-76 option pricing engine
(`EuropeanOptionOnFuture` in `optionprice_question.py`).

The Python floats are modelled by real numbers.  The `math` module
functions `log` and `sqrt` raise `ValueError` (math domain error) outside
their domain, and float division by zero raises `ZeroDivisionError`; these
runtime errors are modelled by an `Except PyErr` result.  `scipy.stats.norm.cdf`
is modelled by the standard normal cumulative distribution function, written
as a Lebesgue integral.  Python `datetime` values are modelled by a record of
calendar fields together with the proleptic-Gregorian ordinal-day arithmetic
that `datetime.__sub__` and `timedelta.days` perform.
-/

open MeasureTheory Set

namespace Black76

/-- The runtime errors that the source can raise.
`optionTypeValueError` is the `ValueError` (Option type must be c or p)
raised in `__init__` and in the fallthrough branches of `get_price` and
`get_delta`; `mathDomainError` is the `ValueError` (math domain error) raised
by `math.log` and `math.sqrt`; `zeroDivisionError` is the `ZeroDivisionError`
raised by float division by zero. -/
inductive PyErr where
  | optionTypeValueError : PyErr
  | mathDomainError : PyErr
  | zeroDivisionError : PyErr
deriving DecidableEq, Repr

/-- `math.log`: the natural logarithm, raising a math domain error on
non-positive arguments. -/
noncomputable def pylog (x : ℝ) : Except PyErr ℝ :=
  if 0 < x then .ok (Real.log x) else .error .mathDomainError

/-- `math.sqrt`: the square root, raising a math domain error on negative
arguments. -/
noncomputable def pysqrt (x : ℝ) : Except PyErr ℝ :=
  if 0 ≤ x then .ok (Real.sqrt x) else .error .mathDomainError

/-- Python float division, raising `ZeroDivisionError` on a zero
denominator. -/
noncomputable def pydiv (a b : ℝ) : Except PyErr ℝ :=
  if b = 0 then .error .zeroDivisionError else .ok (a / b)

/-- A Python `datetime.datetime` value: proleptic Gregorian calendar fields
(year ≥ 1) plus a time of day. -/
structure Datetime where
  year : ℕ
  month : ℕ
  day : ℕ
  hour : ℕ
  minute : ℕ
  second : ℕ
deriving DecidableEq, Repr

/-- Gregorian leap-year test, as in Python `calendar.isleap`. -/
def isLeapYear (y : ℕ) : Bool :=
  y % 4 = 0 && (y % 100 ≠ 0 || y % 400 = 0)

/-- Number of days in the year `y` strictly before month `m`
(Python `datetime._days_before_month`). -/
def daysBeforeMonth (y m : ℕ) : ℕ :=
  let base : ℕ :=
    match m with
    | 1 => 0 | 2 => 31 | 3 => 59 | 4 => 90 | 5 => 120 | 6 => 151
    | 7 => 181 | 8 => 212 | 9 => 243 | 10 => 273 | 11 => 304 | 12 => 334
    | _ => 0
  if 3 ≤ m ∧ isLeapYear y then base + 1 else base

/-- Python `datetime.toordinal`: the proleptic Gregorian ordinal of the date,
where 0001-01-01 has ordinal 1. -/
def toordinal (t : Datetime) : ℕ :=
  (t.year - 1) * 365 + (t.year - 1) / 4 - (t.year - 1) / 100 + (t.year - 1) / 400
    + daysBeforeMonth t.year t.month + t.day

/-- The time of day, in seconds after midnight. -/
def secondsOfDay (t : Datetime) : ℕ :=
  t.hour * 3600 + t.minute * 60 + t.second

/-- The timestamp as a signed count of seconds from 0001-01-01 00:00:00. -/
def toSeconds (t : Datetime) : ℤ :=
  (toordinal t : ℤ) * 86400 + (secondsOfDay t : ℤ)

/-- `(t2 - t1).days` for Python datetimes: the elapsed seconds, floor-divided
by 86400 (Python `timedelta` normalises with floor division). -/
def timedeltaDays (t2 t1 : Datetime) : ℤ :=
  Int.fdiv (toSeconds t2 - toSeconds t1) 86400

/-- `scipy.stats.norm.cdf`: the standard normal cumulative distribution
function Φ. -/
noncomputable def normCdf (x : ℝ) : ℝ :=
  (∫ t in Iic x, Real.exp (-(t ^ 2) / 2)) / Real.sqrt (2 * Real.pi)

/-- The pricing engine: the five fields stored by
`EuropeanOptionOnFuture.__init__`. -/
structure EuropeanOptionOnFuture where
  strike_price : ℝ
  expiry_date : Datetime
  vol : ℝ
  discount_rate : ℝ
  option_type : String

/-- `EuropeanOptionOnFuture.__init__`: stores the five parameters, raising
`ValueError` when `option_type` is not one of the strings "c" and "p". -/
def EuropeanOptionOnFuture.init (strike_price : ℝ) (expiry_date : Datetime)
    (vol discount_rate : ℝ) (option_type : String) :
    Except PyErr EuropeanOptionOnFuture :=
  if option_type = "c" ∨ option_type = "p" then
    .ok ⟨strike_price, expiry_date, vol, discount_rate, option_type⟩
  else
    .error .optionTypeValueError

/-- `EuropeanOptionOnFuture._calc_maturity`: the time to maturity in years,
`(self._expiry_date - current_time).days / 365`. -/
noncomputable def EuropeanOptionOnFuture._calc_maturity
    (self : EuropeanOptionOnFuture) (current_time : Datetime) : ℝ :=
  (timedeltaDays self.expiry_date current_time : ℝ) / 365

/-- `EuropeanOptionOnFuture._calc_d1`: computes
`(log(futures_price / strike) + 0.5 * vol ** 2 * T) / (vol * sqrt(T))`,
with the Python evaluation order (the division inside `log` first, then
`log`, then `sqrt`, then the outer division). -/
noncomputable def EuropeanOptionOnFuture._calc_d1 (self : EuropeanOptionOnFuture)
    (futures_price time_to_maturity : ℝ) : Except PyErr ℝ :=
  match pydiv futures_price self.strike_price with
  | .error e => .error e
  | .ok q =>
    match pylog q with
    | .error e => .error e
    | .ok l =>
      match pysqrt time_to_maturity with
      | .error e => .error e
      | .ok s =>
        pydiv (l + 0.5 * self.vol ^ 2 * time_to_maturity) (self.vol * s)

/-- `EuropeanOptionOnFuture.get_price`: computes `time_to_maturity`, `d1`,
`d2 = d1 - vol * sqrt(time_to_maturity)`, then the discounted Black-76 price
for a call when `option_type == "c"`, for a put when `option_type == "p"`,
and raises `ValueError` otherwise. -/
noncomputable def EuropeanOptionOnFuture.get_price (self : EuropeanOptionOnFuture)
    (futures_price : ℝ) (current_time : Datetime) : Except PyErr ℝ :=
  let time_to_maturity := self._calc_maturity current_time
  match self._calc_d1 futures_price time_to_maturity with
  | .error e => .error e
  | .ok d1 =>
    match pysqrt time_to_maturity with
    | .error e => .error e
    | .ok s =>
      let d2 := d1 - self.vol * s
      if self.option_type = "c" then
        .ok (Real.exp (-self.discount_rate * time_to_maturity) *
          (futures_price * normCdf d1 - self.strike_price * normCdf d2))
      else if self.option_type = "p" then
        .ok (Real.exp (-self.discount_rate * time_to_maturity) *
          (self.strike_price * normCdf (-d2) - futures_price * normCdf (-d1)))
      else
        .error .optionTypeValueError

/-- `EuropeanOptionOnFuture.get_delta`: computes `time_to_maturity` and `d1`,
then the discounted Black-76 delta for a call when `option_type == "c"`, for
a put when `option_type == "p"`, and raises `ValueError` otherwise. -/
noncomputable def EuropeanOptionOnFuture.get_delta (self : EuropeanOptionOnFuture)
    (futures_price : ℝ) (current_time : Datetime) : Except PyErr ℝ :=
  let time_to_maturity := self._calc_maturity current_time
  match self._calc_d1 futures_price time_to_maturity with
  | .error e => .error e
  | .ok d1 =>
    if self.option_type = "c" then
      .ok (Real.exp (-self.discount_rate * time_to_maturity) * normCdf d1)
    else if self.option_type = "p" then
      .ok (Real.exp (-self.discount_rate * time_to_maturity) * (normCdf d1 - 1))
    else
      .error .optionTypeValueError

/-!
Spec-side formulas, written from the words of the specification (§4.1),
to be compared with the methods above.
-/

/-- The spec formula for d1:
`[ln(futures_price / strike_price) + 0.5 * volatility^2 * time_to_maturity]
/ (volatility * sqrt(time_to_maturity))`. -/
noncomputable def spec_d1 (strike vol F T : ℝ) : ℝ :=
  (Real.log (F / strike) + 0.5 * vol ^ 2 * T) / (vol * Real.sqrt T)

/-- The spec formula for d2: `d1 - volatility * sqrt(time_to_maturity)`. -/
noncomputable def spec_d2 (strike vol F T : ℝ) : ℝ :=
  spec_d1 strike vol F T - vol * Real.sqrt T

/-- The spec call price:
`exp(-discount_rate * T) * (futures_price * Φ(d1) - strike_price * Φ(d2))`,
with no clamping. -/
noncomputable def spec_call_price (strike vol r F T : ℝ) : ℝ :=
  Real.exp (-r * T) *
    (F * normCdf (spec_d1 strike vol F T) - strike * normCdf (spec_d2 strike vol F T))

/-- The spec put price:
`exp(-discount_rate * T) * (strike_price * Φ(-d2) - futures_price * Φ(-d1))`,
with no clamping. -/
noncomputable def spec_put_price (strike vol r F T : ℝ) : ℝ :=
  Real.exp (-r * T) *
    (strike * normCdf (-(spec_d2 strike vol F T)) - F * normCdf (-(spec_d1 strike vol F T)))

/-- The spec call delta: `exp(-discount_rate * T) * Φ(d1)`. -/
noncomputable def spec_call_delta (strike vol r F T : ℝ) : ℝ :=
  Real.exp (-r * T) * normCdf (spec_d1 strike vol F T)

/-- The spec put delta: `exp(-discount_rate * T) * (Φ(d1) - 1)`. -/
noncomputable def spec_put_delta (strike vol r F T : ℝ) : ℝ :=
  Real.exp (-r * T) * (normCdf (spec_d1 strike vol F T) - 1)

/-- The spec day-count: whole calendar days between the two timestamps
(the floor of the elapsed time measured in days), divided by 365. -/
noncomputable def spec_time_to_maturity (expiry valuation : Datetime) : ℝ :=
  (⌊((toSeconds expiry - toSeconds valuation : ℤ) : ℝ) / 86400⌋ : ℝ) / 365

/-!
Basic facts about the Gaussian density and the normal CDF.
-/

/-- The unnormalised standard Gaussian density. -/
noncomputable def gauss (t : ℝ) : ℝ := Real.exp (-(t ^ 2) / 2)

theorem gauss_pos (t : ℝ) : 0 < gauss t := Real.exp_pos _

theorem gauss_continuous : Continuous gauss := by
  unfold gauss; fun_prop

theorem gauss_integrable : Integrable gauss := by
  have h := integrable_exp_neg_mul_sq (show (0 : ℝ) < 1 / 2 by norm_num)
  have he : gauss = fun t : ℝ => Real.exp (-(1 / 2) * t ^ 2) := by
    funext t; unfold gauss; ring_nf
  rw [he]; exact h

theorem normCdf_eq_integral (x : ℝ) :
    normCdf x = (∫ t in Iic x, gauss t) / Real.sqrt (2 * Real.pi) := rfl

theorem integral_gauss : ∫ t, gauss t = Real.sqrt (2 * Real.pi) := by
  have h := integral_gaussian (1 / 2 : ℝ)
  have he : (fun t : ℝ => Real.exp (-(1 / 2) * t ^ 2)) = gauss := by
    funext t; unfold gauss; ring_nf
  rw [he] at h
  rw [h]
  norm_num
  ring

theorem sqrt_two_pi_pos : 0 < Real.sqrt (2 * Real.pi) :=
  Real.sqrt_pos.mpr (by positivity)

theorem integral_gauss_Iic_pos (x : ℝ) : 0 < ∫ t in Iic x, gauss t := by
  rw [setIntegral_pos_iff_support_of_nonneg_ae
    (Filter.Eventually.of_forall fun t => (gauss_pos t).le)
    gauss_integrable.integrableOn]
  have hs : Function.support gauss = univ :=
    Set.eq_univ_iff_forall.mpr fun t => Function.mem_support.mpr (gauss_pos t).ne'
  rw [hs, univ_inter, Real.volume_Iic]
  exact ENNReal.zero_lt_top

theorem integral_gauss_Ioi_pos (x : ℝ) : 0 < ∫ t in Ioi x, gauss t := by
  rw [setIntegral_pos_iff_support_of_nonneg_ae
    (Filter.Eventually.of_forall fun t => (gauss_pos t).le)
    gauss_integrable.integrableOn]
  have hs : Function.support gauss = univ :=
    Set.eq_univ_iff_forall.mpr fun t => Function.mem_support.mpr (gauss_pos t).ne'
  rw [hs, univ_inter, Real.volume_Ioi]
  exact ENNReal.zero_lt_top

theorem integral_gauss_Iic_add_Ioi (x : ℝ) :
    (∫ t in Iic x, gauss t) + (∫ t in Ioi x, gauss t) = Real.sqrt (2 * Real.pi) := by
  rw [intervalIntegral.integral_Iic_add_Ioi gauss_integrable.integrableOn
    gauss_integrable.integrableOn]
  exact integral_gauss

theorem normCdf_pos (x : ℝ) : 0 < normCdf x :=
  div_pos (integral_gauss_Iic_pos x) sqrt_two_pi_pos

theorem normCdf_lt_one (x : ℝ) : normCdf x < 1 := by
  rw [normCdf_eq_integral, div_lt_one sqrt_two_pi_pos, ← integral_gauss_Iic_add_Ioi x]
  linarith [integral_gauss_Ioi_pos x]

theorem normCdf_neg_eq (x : ℝ) : normCdf (-x) = 1 - normCdf x := by
  have h1 : ∫ t in Iic (-x), gauss t = ∫ t in Ioi x, gauss t := by
    have h2 := integral_comp_neg_Iic (-x) gauss
    have h3 : ∀ t : ℝ, gauss (-t) = gauss t := by
      intro t; unfold gauss; rw [neg_sq]
    simp only [h3, neg_neg] at h2
    exact h2
  rw [normCdf_eq_integral, normCdf_eq_integral, h1, eq_sub_iff_add_eq,
    div_add_div_same, div_eq_one_iff_eq sqrt_two_pi_pos.ne']
  linarith [integral_gauss_Iic_add_Ioi x]

theorem normCdf_zero : normCdf 0 = 1 / 2 := by
  have h := normCdf_neg_eq 0
  rw [neg_zero] at h
  linarith

theorem hasDerivAt_normCdf (x : ℝ) :
    HasDerivAt normCdf (gauss x / Real.sqrt (2 * Real.pi)) x := by
  have heq : normCdf = fun y =>
      ((∫ t in Iic (0 : ℝ), gauss t) + ∫ t in (0 : ℝ)..y, gauss t) /
        Real.sqrt (2 * Real.pi) := by
    funext y
    rw [normCdf_eq_integral]
    congr 1
    rw [← intervalIntegral.integral_Iic_sub_Iic gauss_integrable.integrableOn
      gauss_integrable.integrableOn]
    ring
  rw [heq]
  have hd : HasDerivAt (fun y => ∫ t in (0 : ℝ)..y, gauss t) (gauss x) x :=
    intervalIntegral.integral_hasDerivAt_right
      (gauss_integrable.intervalIntegrable)
      (gauss_continuous.stronglyMeasurableAtFilter _ _)
      gauss_continuous.continuousAt
  exact (hd.const_add _).div_const _

/-!
Evaluation lemmas: how the engine methods reduce, by cases on the domain
conditions of the arithmetic they perform.
-/

theorem fdiv_86400_eq_floor (a : ℤ) : Int.fdiv a 86400 = ⌊(a : ℝ) / 86400⌋ := by
  rw [Int.fdiv_eq_ediv a (by norm_num : (0 : ℤ) ≤ 86400),
    show ((86400 : ℝ)) = (((86400 : ℚ) : ℝ)) by norm_num,
    show ((a : ℝ)) = (((a : ℚ) : ℝ)) by norm_cast,
    ← Rat.cast_div, Rat.floor_cast,
    show ((86400 : ℚ)) = (((86400 : ℕ) : ℚ)) by norm_num,
    Rat.floor_intCast_div_natCast]
  norm_num

theorem calc_maturity_eq (self : EuropeanOptionOnFuture) (t : Datetime) :
    self._calc_maturity t = spec_time_to_maturity self.expiry_date t := by
  unfold EuropeanOptionOnFuture._calc_maturity spec_time_to_maturity timedeltaDays
  rw [fdiv_86400_eq_floor]

theorem calc_d1_ok (self : EuropeanOptionOnFuture) (F T : ℝ)
    (hK : self.strike_price ≠ 0) (hq : 0 < F / self.strike_price)
    (hT : 0 ≤ T) (hden : self.vol * Real.sqrt T ≠ 0) :
    self._calc_d1 F T = .ok (spec_d1 self.strike_price self.vol F T) := by
  simp only [EuropeanOptionOnFuture._calc_d1, pydiv, pylog, pysqrt, spec_d1,
    if_neg hK, if_pos hq, if_pos hT, if_neg hden]

theorem calc_d1_zero_denominator (self : EuropeanOptionOnFuture) (F T : ℝ)
    (hK : self.strike_price ≠ 0) (hq : 0 < F / self.strike_price)
    (hT : 0 ≤ T) (h0 : T = 0 ∨ self.vol = 0) :
    self._calc_d1 F T = .error .zeroDivisionError := by
  have hden : self.vol * Real.sqrt T = 0 := by
    rcases h0 with h | h
    · rw [h, Real.sqrt_zero, mul_zero]
    · rw [h, zero_mul]
  simp only [EuropeanOptionOnFuture._calc_d1, pydiv, pylog, pysqrt,
    if_neg hK, if_pos hq, if_pos hT, if_pos hden]

theorem calc_d1_negative_maturity (self : EuropeanOptionOnFuture) (F T : ℝ)
    (hK : self.strike_price ≠ 0) (hq : 0 < F / self.strike_price)
    (hT : T < 0) :
    self._calc_d1 F T = .error .mathDomainError := by
  simp only [EuropeanOptionOnFuture._calc_d1, pydiv, pylog, pysqrt,
    if_neg hK, if_pos hq, if_neg (not_le.mpr hT)]

theorem get_price_call_eq (self : EuropeanOptionOnFuture) (F : ℝ) (t : Datetime)
    (hc : self.option_type = "c")
    (hK : self.strike_price ≠ 0) (hq : 0 < F / self.strike_price)
    (hT : 0 ≤ self._calc_maturity t)
    (hden : self.vol * Real.sqrt (self._calc_maturity t) ≠ 0) :
    self.get_price F t = .ok (spec_call_price self.strike_price self.vol
      self.discount_rate F (self._calc_maturity t)) := by
  simp only [EuropeanOptionOnFuture.get_price]
  rw [calc_d1_ok self F _ hK hq hT hden]
  simp [pysqrt, if_pos hT, hc, spec_call_price, spec_d2]

theorem get_price_put_eq (self : EuropeanOptionOnFuture) (F : ℝ) (t : Datetime)
    (hp : self.option_type = "p")
    (hK : self.strike_price ≠ 0) (hq : 0 < F / self.strike_price)
    (hT : 0 ≤ self._calc_maturity t)
    (hden : self.vol * Real.sqrt (self._calc_maturity t) ≠ 0) :
    self.get_price F t = .ok (spec_put_price self.strike_price self.vol
      self.discount_rate F (self._calc_maturity t)) := by
  simp only [EuropeanOptionOnFuture.get_price]
  rw [calc_d1_ok self F _ hK hq hT hden]
  simp [pysqrt, if_pos hT, hp, spec_put_price, spec_d2]

theorem get_delta_call_eq (self : EuropeanOptionOnFuture) (F : ℝ) (t : Datetime)
    (hc : self.option_type = "c")
    (hK : self.strike_price ≠ 0) (hq : 0 < F / self.strike_price)
    (hT : 0 ≤ self._calc_maturity t)
    (hden : self.vol * Real.sqrt (self._calc_maturity t) ≠ 0) :
    self.get_delta F t = .ok (spec_call_delta self.strike_price self.vol
      self.discount_rate F (self._calc_maturity t)) := by
  simp only [EuropeanOptionOnFuture.get_delta]
  rw [calc_d1_ok self F _ hK hq hT hden]
  simp [hc, spec_call_delta]

theorem get_delta_put_eq (self : EuropeanOptionOnFuture) (F : ℝ) (t : Datetime)
    (hp : self.option_type = "p")
    (hK : self.strike_price ≠ 0) (hq : 0 < F / self.strike_price)
    (hT : 0 ≤ self._calc_maturity t)
    (hden : self.vol * Real.sqrt (self._calc_maturity t) ≠ 0) :
    self.get_delta F t = .ok (spec_put_delta self.strike_price self.vol
      self.discount_rate F (self._calc_maturity t)) := by
  simp only [EuropeanOptionOnFuture.get_delta]
  rw [calc_d1_ok self F _ hK hq hT hden]
  simp [hp, spec_put_delta]

/-!
Concrete dates of the test scenario in the `__main__` block.
-/

/-- The expiry date of the test scenario: 2022-11-01 12:00:00. -/
def expiryEx : Datetime := ⟨2022, 11, 1, 12, 0, 0⟩

/-- The valuation time of the test scenario: 2021-11-01 12:00:00. -/
def valuationEx : Datetime := ⟨2021, 11, 1, 12, 0, 0⟩

theorem timedeltaDays_ex : timedeltaDays expiryEx valuationEx = 365 := by decide

theorem timedeltaDays_ex_rev : timedeltaDays valuationEx expiryEx = -365 := by decide

theorem maturity_ex (K v r : ℝ) (ot : String) :
    EuropeanOptionOnFuture._calc_maturity ⟨K, expiryEx, v, r, ot⟩ valuationEx = 1 := by
  unfold EuropeanOptionOnFuture._calc_maturity
  rw [show (⟨K, expiryEx, v, r, ot⟩ : EuropeanOptionOnFuture).expiry_date = expiryEx from rfl,
    timedeltaDays_ex]
  norm_num

theorem maturity_ex_zero (K v r : ℝ) (ot : String) :
    EuropeanOptionOnFuture._calc_maturity ⟨K, expiryEx, v, r, ot⟩ expiryEx = 0 := by
  unfold EuropeanOptionOnFuture._calc_maturity timedeltaDays
  rw [show (⟨K, expiryEx, v, r, ot⟩ : EuropeanOptionOnFuture).expiry_date = expiryEx from rfl,
    sub_self, Int.zero_fdiv]
  norm_num

theorem maturity_ex_neg (K v r : ℝ) (ot : String) :
    EuropeanOptionOnFuture._calc_maturity ⟨K, valuationEx, v, r, ot⟩ expiryEx = -1 := by
  unfold EuropeanOptionOnFuture._calc_maturity
  rw [show (⟨K, valuationEx, v, r, ot⟩ : EuropeanOptionOnFuture).expiry_date = valuationEx from rfl,
    timedeltaDays_ex_rev]
  norm_num

/-!
The claims.
-/

/-- C1: for every constructed engine and every futures price and valuation
time (under the arithmetic domain conditions on those inputs), `get_price`
returns `exp(-r*T) * (F * Φ(d1) - K * Φ(d2))` for a call and
`exp(-r*T) * (K * Φ(-d2) - F * Φ(-d1))` for a put, with `T`, `d1`, `d2`
recomputed from the inputs; the result is the raw analytic formula, with no
upper or lower clamping. -/
theorem black76_get_price_formula (self : EuropeanOptionOnFuture) (F : ℝ)
    (t : Datetime)
    (hK : self.strike_price ≠ 0) (hq : 0 < F / self.strike_price)
    (hT : 0 ≤ self._calc_maturity t)
    (hden : self.vol * Real.sqrt (self._calc_maturity t) ≠ 0) :
    (self.option_type = "c" →
      self.get_price F t = .ok (spec_call_price self.strike_price self.vol
        self.discount_rate F (self._calc_maturity t))) ∧
    (self.option_type = "p" →
      self.get_price F t = .ok (spec_put_price self.strike_price self.vol
        self.discount_rate F (self._calc_maturity t))) :=
  ⟨fun hc => get_price_call_eq self F t hc hK hq hT hden,
   fun hp => get_price_put_eq self F t hp hK hq hT hden⟩

theorem black76_get_price_formula_witness :
    (⟨100, expiryEx, 1/2, 1/100, "c"⟩ : EuropeanOptionOnFuture).get_price 100 valuationEx =
      .ok (spec_call_price 100 (1/2) (1/100) 100 1) := by
  have h := (black76_get_price_formula ⟨100, expiryEx, 1/2, 1/100, "c"⟩ 100 valuationEx
    (by norm_num) (by norm_num)
    (by rw [maturity_ex]; norm_num)
    (by rw [maturity_ex]; rw [Real.sqrt_one]; norm_num)).1 rfl
  rwa [maturity_ex] at h

/-- C2: for every constructed engine and every futures price and valuation
time (under the arithmetic domain conditions on those inputs), `get_delta`
returns `exp(-r*T) * Φ(d1)` for a call and `exp(-r*T) * (Φ(d1) - 1)` for a
put, with `T` and `d1` recomputed from the inputs. -/
theorem black76_get_delta_formula (self : EuropeanOptionOnFuture) (F : ℝ)
    (t : Datetime)
    (hK : self.strike_price ≠ 0) (hq : 0 < F / self.strike_price)
    (hT : 0 ≤ self._calc_maturity t)
    (hden : self.vol * Real.sqrt (self._calc_maturity t) ≠ 0) :
    (self.option_type = "c" →
      self.get_delta F t = .ok (spec_call_delta self.strike_price self.vol
        self.discount_rate F (self._calc_maturity t))) ∧
    (self.option_type = "p" →
      self.get_delta F t = .ok (spec_put_delta self.strike_price self.vol
        self.discount_rate F (self._calc_maturity t))) :=
  ⟨fun hc => get_delta_call_eq self F t hc hK hq hT hden,
   fun hp => get_delta_put_eq self F t hp hK hq hT hden⟩

theorem black76_get_delta_formula_witness :
    (⟨100, expiryEx, 1/2, 1/100, "p"⟩ : EuropeanOptionOnFuture).get_delta 100 valuationEx =
      .ok (spec_put_delta 100 (1/2) (1/100) 100 1) := by
  have h := (black76_get_delta_formula ⟨100, expiryEx, 1/2, 1/100, "p"⟩ 100 valuationEx
    (by norm_num) (by norm_num)
    (by rw [maturity_ex]; norm_num)
    (by rw [maturity_ex]; rw [Real.sqrt_one]; norm_num)).2 rfl
  rwa [maturity_ex] at h

/-- C3: `_calc_d1` computes
`(ln(F/K) + 0.5 * vol^2 * T) / (vol * sqrt(T))`, with `d2` equal to
`d1 - vol * sqrt(T)`; a zero denominator (`T = 0` or `vol = 0`) propagates
as the platform division-by-zero outcome (`ZeroDivisionError`), and a
negative `T` propagates as the `sqrt` domain error (`ValueError`), with no
intrinsic-value fallback substituted. -/
theorem black76_calc_d1_spec (self : EuropeanOptionOnFuture) (F T : ℝ)
    (hK : self.strike_price ≠ 0) (hq : 0 < F / self.strike_price) :
    (0 < T → self.vol ≠ 0 →
      self._calc_d1 F T = .ok ((Real.log (F / self.strike_price) +
        0.5 * self.vol ^ 2 * T) / (self.vol * Real.sqrt T))) ∧
    (0 ≤ T → (T = 0 ∨ self.vol = 0) →
      self._calc_d1 F T = .error .zeroDivisionError) ∧
    (T < 0 → self._calc_d1 F T = .error .mathDomainError) ∧
    spec_d2 self.strike_price self.vol F T =
      spec_d1 self.strike_price self.vol F T - self.vol * Real.sqrt T := by
  refine ⟨fun hT hv => ?_, fun hT h0 => ?_, fun hT => ?_, rfl⟩
  · have hden : self.vol * Real.sqrt T ≠ 0 :=
      mul_ne_zero hv (Real.sqrt_pos.mpr hT).ne'
    exact calc_d1_ok self F T hK hq hT.le hden
  · exact calc_d1_zero_denominator self F T hK hq hT h0
  · exact calc_d1_negative_maturity self F T hK hq hT

theorem black76_calc_d1_spec_witness :
    (⟨100, expiryEx, 1/2, 1/100, "c"⟩ : EuropeanOptionOnFuture)._calc_d1 100 1 =
      .ok ((Real.log (100 / 100) + 0.5 * (1/2) ^ 2 * 1) / ((1/2) * Real.sqrt 1)) ∧
    (⟨100, expiryEx, 1/2, 1/100, "c"⟩ : EuropeanOptionOnFuture)._calc_d1 100 0 =
      .error .zeroDivisionError ∧
    (⟨100, expiryEx, 1/2, 1/100, "c"⟩ : EuropeanOptionOnFuture)._calc_d1 100 (-1) =
      .error .mathDomainError :=
  ⟨(black76_calc_d1_spec ⟨100, expiryEx, 1/2, 1/100, "c"⟩ 100 1 (by norm_num)
      (by norm_num)).1 (by norm_num) (by norm_num),
   (black76_calc_d1_spec ⟨100, expiryEx, 1/2, 1/100, "c"⟩ 100 0 (by norm_num)
      (by norm_num)).2.1 le_rfl (Or.inl rfl),
   (black76_calc_d1_spec ⟨100, expiryEx, 1/2, 1/100, "c"⟩ 100 (-1) (by norm_num)
      (by norm_num)).2.2.1 (by norm_num)⟩

/-- C4: `_calc_maturity` equals the whole-calendar-day difference between
expiry and valuation divided by 365 (actual/365 fixed), for every valuation
time, with no special-casing; the result can be zero (valuation at expiry)
or negative (valuation after expiry). -/
theorem black76_calc_maturity_spec (self : EuropeanOptionOnFuture) (t : Datetime) :
    self._calc_maturity t = spec_time_to_maturity self.expiry_date t ∧
    (∀ K v r : ℝ, ∀ ot : String,
      EuropeanOptionOnFuture._calc_maturity ⟨K, expiryEx, v, r, ot⟩ expiryEx = 0) ∧
    (∀ K v r : ℝ, ∀ ot : String,
      EuropeanOptionOnFuture._calc_maturity ⟨K, valuationEx, v, r, ot⟩ expiryEx < 0) :=
  ⟨calc_maturity_eq self t,
   fun K v r ot => maturity_ex_zero K v r ot,
   fun K v r ot => by rw [maturity_ex_neg]; norm_num⟩

/-- C5: construction fails with the `InvalidOptionType` error exactly when
`option_type` is neither "c" nor "p"; with either recognized value it
succeeds (the check happens in `__init__`, before any evaluation). -/
theorem black76_init_validation (K : ℝ) (e : Datetime) (v r : ℝ) (ot : String) :
    ((∃ err, EuropeanOptionOnFuture.init K e v r ot = .error err) ↔
      ¬(ot = "c" ∨ ot = "p")) ∧
    ((ot = "c" ∨ ot = "p") →
      EuropeanOptionOnFuture.init K e v r ot = .ok ⟨K, e, v, r, ot⟩) ∧
    (∀ err, EuropeanOptionOnFuture.init K e v r ot = .error err →
      err = .optionTypeValueError) := by
  by_cases h : ot = "c" ∨ ot = "p" <;>
    simp [EuropeanOptionOnFuture.init, h]

theorem black76_init_validation_witness :
    EuropeanOptionOnFuture.init 100 expiryEx (1/2) (1/100) "x" =
      .error .optionTypeValueError ∧
    EuropeanOptionOnFuture.init 100 expiryEx (1/2) (1/100) "c" =
      .ok ⟨100, expiryEx, 1/2, 1/100, "c"⟩ ∧
    EuropeanOptionOnFuture.init 100 expiryEx (1/2) (1/100) "p" =
      .ok ⟨100, expiryEx, 1/2, 1/100, "p"⟩ := by
  refine ⟨?_, ?_, ?_⟩
  · obtain ⟨err, herr⟩ := (black76_init_validation 100 expiryEx (1/2) (1/100) "x").1.mpr
      (by simp)
    have he := (black76_init_validation 100 expiryEx (1/2) (1/100) "x").2.2 err herr
    rwa [he] at herr
  · exact (black76_init_validation 100 expiryEx (1/2) (1/100) "c").2.1 (Or.inl rfl)
  · exact (black76_init_validation 100 expiryEx (1/2) (1/100) "p").2.1 (Or.inr rfl)

theorem pysqrt_cases (x : ℝ) :
    pysqrt x = .error .mathDomainError ∨ ∃ s, pysqrt x = .ok s := by
  unfold pysqrt
  split_ifs <;> simp

theorem calc_d1_cases (self : EuropeanOptionOnFuture) (F T : ℝ) :
    self._calc_d1 F T = .error .zeroDivisionError ∨
    self._calc_d1 F T = .error .mathDomainError ∨
    ∃ d, self._calc_d1 F T = .ok d := by
  by_cases h1 : self.strike_price = 0
  · exact Or.inl (by simp [EuropeanOptionOnFuture._calc_d1, pydiv, h1])
  by_cases h2 : 0 < F / self.strike_price
  · by_cases h3 : 0 ≤ T
    · by_cases h4 : self.vol * Real.sqrt T = 0
      · exact Or.inl (by
          simp [EuropeanOptionOnFuture._calc_d1, pydiv, pylog, pysqrt, h1, h2, h3, h4])
      · exact Or.inr (Or.inr ⟨_, calc_d1_ok self F T h1 h2 h3 h4⟩)
    · exact Or.inr (Or.inl (calc_d1_negative_maturity self F T h1 h2 (not_le.mp h3)))
  · exact Or.inr (Or.inl (by
      simp [EuropeanOptionOnFuture._calc_d1, pydiv, pylog, h1, h2]))

/-- C10: on a successfully constructed engine the stored `option_type` is
"c" or "p", so the fallthrough `ValueError` branches in `get_price` and
`get_delta` are unreachable: no call to them ever returns that error. -/
theorem black76_no_fallthrough (K : ℝ) (e : Datetime) (v r : ℝ) (ot : String)
    (self : EuropeanOptionOnFuture)
    (h : EuropeanOptionOnFuture.init K e v r ot = .ok self) :
    (self.option_type = "c" ∨ self.option_type = "p") ∧
    ∀ F : ℝ, ∀ t : Datetime,
      self.get_price F t ≠ .error .optionTypeValueError ∧
      self.get_delta F t ≠ .error .optionTypeValueError := by
  have hopt : self.option_type = "c" ∨ self.option_type = "p" := by
    unfold EuropeanOptionOnFuture.init at h
    split_ifs at h with hc
    obtain rfl : (⟨K, e, v, r, ot⟩ : EuropeanOptionOnFuture) = self := by
      injection h
    exact hc
  refine ⟨hopt, fun F t => ⟨?_, ?_⟩⟩
  · simp only [EuropeanOptionOnFuture.get_price]
    rcases calc_d1_cases self F (self._calc_maturity t) with hd | hd | ⟨d, hd⟩ <;>
      simp only [hd] <;> try simp
    all_goals
      rcases pysqrt_cases (self._calc_maturity t) with hs | ⟨s, hs⟩ <;>
        simp only [hs] <;> try simp
    all_goals rcases hopt with ho | ho <;> simp [ho]
  · simp only [EuropeanOptionOnFuture.get_delta]
    rcases calc_d1_cases self F (self._calc_maturity t) with hd | hd | ⟨d, hd⟩ <;>
      simp only [hd] <;> try simp
    all_goals rcases hopt with ho | ho <;> simp [ho]

theorem black76_no_fallthrough_witness :
    ((⟨100, expiryEx, 1/2, 1/100, "c"⟩ : EuropeanOptionOnFuture).option_type = "c" ∨
     (⟨100, expiryEx, 1/2, 1/100, "c"⟩ : EuropeanOptionOnFuture).option_type = "p") ∧
    ∀ F : ℝ, ∀ t : Datetime,
      (⟨100, expiryEx, 1/2, 1/100, "c"⟩ : EuropeanOptionOnFuture).get_price F t ≠
        .error .optionTypeValueError ∧
      (⟨100, expiryEx, 1/2, 1/100, "c"⟩ : EuropeanOptionOnFuture).get_delta F t ≠
        .error .optionTypeValueError :=
  black76_no_fallthrough 100 expiryEx (1/2) (1/100) "c" _
    (by simp [EuropeanOptionOnFuture.init])

/-- C6: with positive time to maturity and positive volatility, the call
delta is strictly positive and at most the discount factor, and the put
delta is strictly negative and at least minus the discount factor. -/
theorem black76_delta_sign_bounds (self : EuropeanOptionOnFuture) (F : ℝ)
    (t : Datetime)
    (hK : self.strike_price ≠ 0) (hq : 0 < F / self.strike_price)
    (hT : 0 < self._calc_maturity t) (hv : 0 < self.vol) :
    (self.option_type = "c" → ∃ δ, self.get_delta F t = .ok δ ∧
      0 < δ ∧ δ ≤ Real.exp (-self.discount_rate * self._calc_maturity t)) ∧
    (self.option_type = "p" → ∃ δ, self.get_delta F t = .ok δ ∧
      -Real.exp (-self.discount_rate * self._calc_maturity t) ≤ δ ∧ δ < 0) := by
  have hden : self.vol * Real.sqrt (self._calc_maturity t) ≠ 0 :=
    mul_ne_zero hv.ne' (Real.sqrt_pos.mpr hT).ne'
  have hF0 := normCdf_pos (spec_d1 self.strike_price self.vol F (self._calc_maturity t))
  have hF1 := normCdf_lt_one (spec_d1 self.strike_price self.vol F (self._calc_maturity t))
  have hE := Real.exp_pos (-self.discount_rate * self._calc_maturity t)
  constructor
  · intro hc
    refine ⟨_, get_delta_call_eq self F t hc hK hq hT.le hden, ?_, ?_⟩
    · exact mul_pos hE hF0
    · unfold spec_call_delta
      nlinarith
  · intro hp
    refine ⟨_, get_delta_put_eq self F t hp hK hq hT.le hden, ?_, ?_⟩
    · unfold spec_put_delta
      nlinarith
    · unfold spec_put_delta
      nlinarith

theorem black76_delta_sign_bounds_witness :
    (∃ δ, (⟨100, expiryEx, 1/2, 1/100, "c"⟩ : EuropeanOptionOnFuture).get_delta
        100 valuationEx = .ok δ ∧ 0 < δ ∧
        δ ≤ Real.exp (-(1/100) * (EuropeanOptionOnFuture._calc_maturity
          ⟨100, expiryEx, 1/2, 1/100, "c"⟩ valuationEx))) ∧
    (∃ δ, (⟨100, expiryEx, 1/2, 1/100, "p"⟩ : EuropeanOptionOnFuture).get_delta
        100 valuationEx = .ok δ ∧
        -Real.exp (-(1/100) * (EuropeanOptionOnFuture._calc_maturity
          ⟨100, expiryEx, 1/2, 1/100, "p"⟩ valuationEx)) ≤ δ ∧ δ < 0) :=
  ⟨(black76_delta_sign_bounds ⟨100, expiryEx, 1/2, 1/100, "c"⟩ 100 valuationEx
      (by norm_num) (by norm_num) (by rw [maturity_ex]; norm_num) (by norm_num)).1 rfl,
   (black76_delta_sign_bounds ⟨100, expiryEx, 1/2, 1/100, "p"⟩ 100 valuationEx
      (by norm_num) (by norm_num) (by rw [maturity_ex]; norm_num) (by norm_num)).2 rfl⟩

/-- C7: for two engines identical except for the option type, the call
delta minus the put delta equals the discount factor `exp(-r*T)` at every
futures price and valuation time (under the arithmetic domain conditions). -/
theorem black76_put_call_delta_parity (K : ℝ) (e : Datetime) (v r F : ℝ)
    (t : Datetime)
    (hK : K ≠ 0) (hq : 0 < F / K)
    (hT : 0 ≤ EuropeanOptionOnFuture._calc_maturity ⟨K, e, v, r, "c"⟩ t)
    (hden : v * Real.sqrt (EuropeanOptionOnFuture._calc_maturity
      ⟨K, e, v, r, "c"⟩ t) ≠ 0) :
    ∃ δc δp,
      (⟨K, e, v, r, "c"⟩ : EuropeanOptionOnFuture).get_delta F t = .ok δc ∧
      (⟨K, e, v, r, "p"⟩ : EuropeanOptionOnFuture).get_delta F t = .ok δp ∧
      δc - δp = Real.exp (-r * EuropeanOptionOnFuture._calc_maturity
        ⟨K, e, v, r, "c"⟩ t) := by
  have hTeq : EuropeanOptionOnFuture._calc_maturity ⟨K, e, v, r, "p"⟩ t =
      EuropeanOptionOnFuture._calc_maturity ⟨K, e, v, r, "c"⟩ t := rfl
  have hc := get_delta_call_eq ⟨K, e, v, r, "c"⟩ F t rfl hK hq hT hden
  have hp := get_delta_put_eq ⟨K, e, v, r, "p"⟩ F t rfl hK hq
    (by rw [hTeq]; exact hT) (by rw [hTeq]; exact hden)
  rw [hTeq] at hp
  refine ⟨_, _, hc, hp, ?_⟩
  unfold spec_call_delta spec_put_delta
  ring

theorem black76_put_call_delta_parity_witness :
    ∃ δc δp,
      (⟨100, expiryEx, 1/2, 1/100, "c"⟩ : EuropeanOptionOnFuture).get_delta
        100 valuationEx = .ok δc ∧
      (⟨100, expiryEx, 1/2, 1/100, "p"⟩ : EuropeanOptionOnFuture).get_delta
        100 valuationEx = .ok δp ∧
      δc - δp = Real.exp (-(1/100) * EuropeanOptionOnFuture._calc_maturity
        ⟨100, expiryEx, 1/2, 1/100, "c"⟩ valuationEx) :=
  black76_put_call_delta_parity 100 expiryEx (1/2) (1/100) 100 valuationEx
    (by norm_num) (by norm_num)
    (by rw [maturity_ex]; norm_num)
    (by rw [maturity_ex]; rw [Real.sqrt_one]; norm_num)

/-!
Monotonicity of the Black-76 price in the futures price, via the derivative.
-/

theorem hasDerivAt_spec_d1 (K v T F : ℝ) (hK : K ≠ 0) (hF : F ≠ 0) :
    HasDerivAt (fun x => spec_d1 K v x T) (1 / F / (v * Real.sqrt T)) F := by
  have h1 : HasDerivAt (fun x : ℝ => x / K) (1 / K) F := (hasDerivAt_id F).div_const K
  have h2 : HasDerivAt (fun x : ℝ => Real.log (x / K)) (1 / F) F := by
    have h := h1.log (div_ne_zero hF hK)
    convert h using 1
    field_simp
  exact (h2.add_const (0.5 * v ^ 2 * T)).div_const (v * Real.sqrt T)

theorem hasDerivAt_spec_d2 (K v T F : ℝ) (hK : K ≠ 0) (hF : F ≠ 0) :
    HasDerivAt (fun x => spec_d2 K v x T) (1 / F / (v * Real.sqrt T)) F :=
  (hasDerivAt_spec_d1 K v T F hK hF).sub_const (v * Real.sqrt T)

theorem sqrt_pos_of_mul_ne_zero {v T : ℝ} (ha : v * Real.sqrt T ≠ 0) : 0 < T := by
  rcases mul_ne_zero_iff.mp ha with ⟨_, hs⟩
  exact Real.sqrt_ne_zero'.mp hs

/-- The key density identity `F * φ(d1) = K * φ(d2)` behind the Black-76
delta. -/
theorem gauss_d1_d2_identity (K v T F : ℝ) (hK : 0 < K) (hF : 0 < F)
    (ha : v * Real.sqrt T ≠ 0) :
    F * gauss (spec_d1 K v F T) = K * gauss (spec_d2 K v F T) := by
  have hT : 0 < T := sqrt_pos_of_mul_ne_zero ha
  have hd1a : spec_d1 K v F T * (v * Real.sqrt T) =
      Real.log (F / K) + 0.5 * v ^ 2 * T := by
    rw [spec_d1, div_mul_cancel₀ _ ha]
  have ha2 : (v * Real.sqrt T) ^ 2 = v ^ 2 * T := by
    rw [mul_pow, Real.sq_sqrt hT.le]
  have hlog : Real.log (F / K) = Real.log F - Real.log K :=
    Real.log_div hF.ne' hK.ne'
  have key : Real.log F - (spec_d1 K v F T) ^ 2 / 2 =
      Real.log K - (spec_d2 K v F T) ^ 2 / 2 := by
    have hd2 : spec_d2 K v F T = spec_d1 K v F T - v * Real.sqrt T := rfl
    rw [hd2]
    have hexpand : (spec_d1 K v F T - v * Real.sqrt T) ^ 2 =
        (spec_d1 K v F T) ^ 2 - 2 * (spec_d1 K v F T * (v * Real.sqrt T)) +
          (v * Real.sqrt T) ^ 2 := by ring
    rw [hexpand, hd1a, ha2, hlog]
    ring
  have e1 : F * gauss (spec_d1 K v F T) =
      Real.exp (Real.log F - (spec_d1 K v F T) ^ 2 / 2) := by
    rw [Real.exp_sub, Real.exp_log hF, gauss, neg_div, Real.exp_neg]
    ring
  have e2 : K * gauss (spec_d2 K v F T) =
      Real.exp (Real.log K - (spec_d2 K v F T) ^ 2 / 2) := by
    rw [Real.exp_sub, Real.exp_log hK, gauss, neg_div, Real.exp_neg]
    ring
  rw [e1, e2, key]

theorem hasDerivAt_spec_call_price (K v r T F : ℝ) (hK : 0 < K) (hF : 0 < F)
    (ha : v * Real.sqrt T ≠ 0) :
    HasDerivAt (fun x => spec_call_price K v r x T)
      (Real.exp (-r * T) * normCdf (spec_d1 K v F T)) F := by
  have hd1 := hasDerivAt_spec_d1 K v T F hK.ne' hF.ne'
  have hd2 := hasDerivAt_spec_d2 K v T F hK.ne' hF.ne'
  have hn1 : HasDerivAt (fun x => normCdf (spec_d1 K v x T))
      (gauss (spec_d1 K v F T) / Real.sqrt (2 * Real.pi) *
        (1 / F / (v * Real.sqrt T))) F :=
    (hasDerivAt_normCdf _).comp F hd1
  have hn2 : HasDerivAt (fun x => normCdf (spec_d2 K v x T))
      (gauss (spec_d2 K v F T) / Real.sqrt (2 * Real.pi) *
        (1 / F / (v * Real.sqrt T))) F :=
    (hasDerivAt_normCdf _).comp F hd2
  have hFn1 : HasDerivAt (fun x => x * normCdf (spec_d1 K v x T))
      (1 * normCdf (spec_d1 K v F T) +
        F * (gauss (spec_d1 K v F T) / Real.sqrt (2 * Real.pi) *
          (1 / F / (v * Real.sqrt T)))) F :=
    (hasDerivAt_id F).mul hn1
  have hKn2 : HasDerivAt (fun x => K * normCdf (spec_d2 K v x T))
      (K * (gauss (spec_d2 K v F T) / Real.sqrt (2 * Real.pi) *
        (1 / F / (v * Real.sqrt T)))) F :=
    hn2.const_mul K
  have hfull := (hFn1.sub hKn2).const_mul (Real.exp (-r * T))
  have hid := gauss_d1_d2_identity K v T F hK hF ha
  have hvals : Real.exp (-r * T) *
      (1 * normCdf (spec_d1 K v F T) +
        F * (gauss (spec_d1 K v F T) / Real.sqrt (2 * Real.pi) *
          (1 / F / (v * Real.sqrt T))) -
        K * (gauss (spec_d2 K v F T) / Real.sqrt (2 * Real.pi) *
          (1 / F / (v * Real.sqrt T)))) =
      Real.exp (-r * T) * normCdf (spec_d1 K v F T) := by
    linear_combination (Real.exp (-r * T) * (1 / Real.sqrt (2 * Real.pi)) *
      (1 / F / (v * Real.sqrt T))) * hid
  unfold spec_call_price
  exact hvals ▸ hfull

theorem spec_call_price_strictMonoOn (K v r T : ℝ) (hK : 0 < K)
    (ha : v * Real.sqrt T ≠ 0) :
    StrictMonoOn (fun F => spec_call_price K v r F T) (Ioi 0) := by
  apply strictMonoOn_of_deriv_pos (convex_Ioi 0)
  · intro F hF
    exact (hasDerivAt_spec_call_price K v r T F hK (mem_Ioi.mp hF)
      ha).continuousAt.continuousWithinAt
  · intro F hF
    rw [interior_Ioi] at hF
    rw [(hasDerivAt_spec_call_price K v r T F hK (mem_Ioi.mp hF) ha).deriv]
    exact mul_pos (Real.exp_pos _) (normCdf_pos _)

theorem spec_put_call_parity (K v r F T : ℝ) :
    spec_put_price K v r F T =
      spec_call_price K v r F T - Real.exp (-r * T) * (F - K) := by
  unfold spec_put_price spec_call_price
  rw [normCdf_neg_eq (spec_d1 K v F T), normCdf_neg_eq (spec_d2 K v F T)]
  ring

theorem hasDerivAt_spec_put_price (K v r T F : ℝ) (hK : 0 < K) (hF : 0 < F)
    (ha : v * Real.sqrt T ≠ 0) :
    HasDerivAt (fun x => spec_put_price K v r x T)
      (Real.exp (-r * T) * (normCdf (spec_d1 K v F T) - 1)) F := by
  have hcall := hasDerivAt_spec_call_price K v r T F hK hF ha
  have hlin : HasDerivAt (fun x : ℝ => Real.exp (-r * T) * (x - K))
      (Real.exp (-r * T)) F := by
    simpa using ((hasDerivAt_id F).sub_const K).const_mul (Real.exp (-r * T))
  have h := hcall.sub hlin
  have hfun : (fun x => spec_put_price K v r x T) =
      (fun x => spec_call_price K v r x T - Real.exp (-r * T) * (x - K)) := by
    funext x
    exact spec_put_call_parity K v r x T
  rw [hfun]
  convert h using 1
  ring

theorem spec_put_price_strictAntiOn (K v r T : ℝ) (hK : 0 < K)
    (ha : v * Real.sqrt T ≠ 0) :
    StrictAntiOn (fun F => spec_put_price K v r F T) (Ioi 0) := by
  apply strictAntiOn_of_deriv_neg (convex_Ioi 0)
  · intro F hF
    exact (hasDerivAt_spec_put_price K v r T F hK (mem_Ioi.mp hF)
      ha).continuousAt.continuousWithinAt
  · intro F hF
    rw [interior_Ioi] at hF
    rw [(hasDerivAt_spec_put_price K v r T F hK (mem_Ioi.mp hF) ha).deriv]
    have h1 := normCdf_lt_one (spec_d1 K v F T)
    exact mul_neg_of_pos_of_neg (Real.exp_pos _) (by linarith)

/-- C8: with positive time to maturity and positive volatility, increasing
the futures price strictly increases the call price and strictly decreases
the put price. -/
theorem black76_price_monotone (self : EuropeanOptionOnFuture) (t : Datetime)
    (F1 F2 : ℝ)
    (hK : 0 < self.strike_price) (hT : 0 < self._calc_maturity t)
    (hv : 0 < self.vol) (h1 : 0 < F1) (h12 : F1 < F2) :
    (self.option_type = "c" → ∃ p1 p2,
      self.get_price F1 t = .ok p1 ∧ self.get_price F2 t = .ok p2 ∧ p1 < p2) ∧
    (self.option_type = "p" → ∃ p1 p2,
      self.get_price F1 t = .ok p1 ∧ self.get_price F2 t = .ok p2 ∧ p2 < p1) := by
  have h2 : 0 < F2 := h1.trans h12
  have ha : self.vol * Real.sqrt (self._calc_maturity t) ≠ 0 :=
    mul_ne_zero hv.ne' (Real.sqrt_pos.mpr hT).ne'
  have hq1 : 0 < F1 / self.strike_price := div_pos h1 hK
  have hq2 : 0 < F2 / self.strike_price := div_pos h2 hK
  constructor
  · intro hc
    refine ⟨_, _, get_price_call_eq self F1 t hc hK.ne' hq1 hT.le ha,
      get_price_call_eq self F2 t hc hK.ne' hq2 hT.le ha, ?_⟩
    exact spec_call_price_strictMonoOn self.strike_price self.vol
      self.discount_rate (self._calc_maturity t) hK ha
      (mem_Ioi.mpr h1) (mem_Ioi.mpr h2) h12
  · intro hp
    refine ⟨_, _, get_price_put_eq self F1 t hp hK.ne' hq1 hT.le ha,
      get_price_put_eq self F2 t hp hK.ne' hq2 hT.le ha, ?_⟩
    exact spec_put_price_strictAntiOn self.strike_price self.vol
      self.discount_rate (self._calc_maturity t) hK ha
      (mem_Ioi.mpr h1) (mem_Ioi.mpr h2) h12

theorem black76_price_monotone_witness :
    (∃ p1 p2,
      (⟨100, expiryEx, 1/2, 1/100, "c"⟩ : EuropeanOptionOnFuture).get_price
        100 valuationEx = .ok p1 ∧
      (⟨100, expiryEx, 1/2, 1/100, "c"⟩ : EuropeanOptionOnFuture).get_price
        110 valuationEx = .ok p2 ∧ p1 < p2) ∧
    (∃ p1 p2,
      (⟨100, expiryEx, 1/2, 1/100, "p"⟩ : EuropeanOptionOnFuture).get_price
        100 valuationEx = .ok p1 ∧
      (⟨100, expiryEx, 1/2, 1/100, "p"⟩ : EuropeanOptionOnFuture).get_price
        110 valuationEx = .ok p2 ∧ p2 < p1) :=
  ⟨(black76_price_monotone ⟨100, expiryEx, 1/2, 1/100, "c"⟩ valuationEx 100 110
      (by norm_num) (by rw [maturity_ex]; norm_num) (by norm_num)
      (by norm_num) (by norm_num)).1 rfl,
   (black76_price_monotone ⟨100, expiryEx, 1/2, 1/100, "p"⟩ valuationEx 100 110
      (by norm_num) (by rw [maturity_ex]; norm_num) (by norm_num)
      (by norm_num) (by norm_num)).2 rfl⟩

/-!
Numeric bounds for the end-to-end scenario (C9).
-/

theorem gauss_taylor_bound (t : ℝ) (ht : |t| ≤ 1) :
    |gauss t - (1 - t^2/2 + t^4/8 - t^6/48)| ≤ 5 * t^8 / 1536 := by
  have ht2 : t^2 ≤ 1 := by nlinarith [sq_abs t, abs_nonneg t]
  have habs : |(-(t^2)/2 : ℝ)| = t^2/2 := by
    rw [abs_div, abs_neg, abs_of_nonneg (sq_nonneg t)]
    norm_num
  have hx : |(-(t^2)/2 : ℝ)| ≤ 1 := by rw [habs]; linarith
  have h := Real.exp_bound hx (by norm_num : 0 < 4)
  have hsum : ∑ m ∈ Finset.range 4, (-(t^2)/2)^m / (m.factorial : ℝ) =
      1 - t^2/2 + t^4/8 - t^6/48 := by
    simp [Finset.sum_range_succ, Nat.factorial]
    ring
  rw [hsum, habs] at h
  norm_num [Nat.factorial] at h
  calc |gauss t - (1 - t^2/2 + t^4/8 - t^6/48)| ≤ (t^2/2)^4 * (5/96) := h
    _ = 5 * t^8 / 1536 := by ring

theorem integral_poly_low :
    (∫ t in (0:ℝ)..(1/4), (1 - t^2/2 + t^4/8 - t^6/48 - 5*t^8/1536)) =
      1/4 - 1/384 + 1/40960 - 1/5505024 - 5/3623878656 := by
  have h1234 : IntervalIntegrable (fun t : ℝ => 1 - t^2/2 + t^4/8 - t^6/48) volume 0 (1/4) :=
    (by continuity : Continuous (fun t : ℝ => 1 - t^2/2 + t^4/8 - t^6/48)).intervalIntegrable 0 (1/4)
  have h123 : IntervalIntegrable (fun t : ℝ => 1 - t^2/2 + t^4/8) volume 0 (1/4) :=
    (by continuity : Continuous (fun t : ℝ => 1 - t^2/2 + t^4/8)).intervalIntegrable 0 (1/4)
  have h12 : IntervalIntegrable (fun t : ℝ => 1 - t^2/2) volume 0 (1/4) :=
    (by continuity : Continuous (fun t : ℝ => 1 - t^2/2)).intervalIntegrable 0 (1/4)
  have h1 : IntervalIntegrable (fun t : ℝ => (1:ℝ)) volume 0 (1/4) :=
    (by continuity : Continuous (fun t : ℝ => (1:ℝ))).intervalIntegrable 0 (1/4)
  have h2 : IntervalIntegrable (fun t : ℝ => t^2/2) volume 0 (1/4) :=
    (by continuity : Continuous (fun t : ℝ => t^2/2)).intervalIntegrable 0 (1/4)
  have h3 : IntervalIntegrable (fun t : ℝ => t^4/8) volume 0 (1/4) :=
    (by continuity : Continuous (fun t : ℝ => t^4/8)).intervalIntegrable 0 (1/4)
  have h4 : IntervalIntegrable (fun t : ℝ => t^6/48) volume 0 (1/4) :=
    (by continuity : Continuous (fun t : ℝ => t^6/48)).intervalIntegrable 0 (1/4)
  have h5 : IntervalIntegrable (fun t : ℝ => 5*t^8/1536) volume 0 (1/4) :=
    (by continuity : Continuous (fun t : ℝ => 5*t^8/1536)).intervalIntegrable 0 (1/4)
  rw [intervalIntegral.integral_sub h1234 h5, intervalIntegral.integral_sub h123 h4,
    intervalIntegral.integral_add h12 h3, intervalIntegral.integral_sub h1 h2]
  simp only [intervalIntegral.integral_div, integral_pow, intervalIntegral.integral_const]
  rw [intervalIntegral.integral_const_mul]
  simp only [integral_pow]
  norm_num

theorem integral_poly_up :
    (∫ t in (0:ℝ)..(1/4), (1 - t^2/2 + t^4/8 - t^6/48 + 5*t^8/1536)) =
      1/4 - 1/384 + 1/40960 - 1/5505024 + 5/3623878656 := by
  have h1234 : IntervalIntegrable (fun t : ℝ => 1 - t^2/2 + t^4/8 - t^6/48) volume 0 (1/4) :=
    (by continuity : Continuous (fun t : ℝ => 1 - t^2/2 + t^4/8 - t^6/48)).intervalIntegrable 0 (1/4)
  have h123 : IntervalIntegrable (fun t : ℝ => 1 - t^2/2 + t^4/8) volume 0 (1/4) :=
    (by continuity : Continuous (fun t : ℝ => 1 - t^2/2 + t^4/8)).intervalIntegrable 0 (1/4)
  have h12 : IntervalIntegrable (fun t : ℝ => 1 - t^2/2) volume 0 (1/4) :=
    (by continuity : Continuous (fun t : ℝ => 1 - t^2/2)).intervalIntegrable 0 (1/4)
  have h1 : IntervalIntegrable (fun t : ℝ => (1:ℝ)) volume 0 (1/4) :=
    (by continuity : Continuous (fun t : ℝ => (1:ℝ))).intervalIntegrable 0 (1/4)
  have h2 : IntervalIntegrable (fun t : ℝ => t^2/2) volume 0 (1/4) :=
    (by continuity : Continuous (fun t : ℝ => t^2/2)).intervalIntegrable 0 (1/4)
  have h3 : IntervalIntegrable (fun t : ℝ => t^4/8) volume 0 (1/4) :=
    (by continuity : Continuous (fun t : ℝ => t^4/8)).intervalIntegrable 0 (1/4)
  have h4 : IntervalIntegrable (fun t : ℝ => t^6/48) volume 0 (1/4) :=
    (by continuity : Continuous (fun t : ℝ => t^6/48)).intervalIntegrable 0 (1/4)
  have h5 : IntervalIntegrable (fun t : ℝ => 5*t^8/1536) volume 0 (1/4) :=
    (by continuity : Continuous (fun t : ℝ => 5*t^8/1536)).intervalIntegrable 0 (1/4)
  rw [intervalIntegral.integral_add h1234 h5, intervalIntegral.integral_sub h123 h4,
    intervalIntegral.integral_add h12 h3, intervalIntegral.integral_sub h1 h2]
  simp only [intervalIntegral.integral_div, integral_pow, intervalIntegral.integral_const]
  rw [intervalIntegral.integral_const_mul]
  simp only [integral_pow]
  norm_num

theorem sqrt_two_pi_lower : (2.5066282 : ℝ) ≤ Real.sqrt (2 * Real.pi) := by
  have hpi := Real.pi_gt_d20
  rw [show (2.5066282:ℝ) = Real.sqrt (2.5066282^2) from (Real.sqrt_sq (by norm_num)).symm]
  apply Real.sqrt_le_sqrt
  nlinarith

theorem sqrt_two_pi_upper : Real.sqrt (2 * Real.pi) ≤ 2.5066283 := by
  have hpi := Real.pi_lt_d20
  rw [show (2.5066283:ℝ) = Real.sqrt (2.5066283^2) from (Real.sqrt_sq (by norm_num)).symm]
  apply Real.sqrt_le_sqrt
  nlinarith

theorem exp_neg_hundredth_bounds :
    (0.99004983 : ℝ) ≤ Real.exp (-(1/100)) ∧ Real.exp (-(1/100)) ≤ 0.99004984 := by
  have hx : |(-(1/100) : ℝ)| ≤ 1 := by
    rw [abs_neg, abs_of_nonneg (by norm_num : (0:ℝ) ≤ 1/100)]
    norm_num
  have h := Real.exp_bound hx (by norm_num : 0 < 4)
  have hsum : ∑ m ∈ Finset.range 4, (-(1/100:ℝ))^m / (m.factorial : ℝ) =
      1 - 1/100 + 1/20000 - 1/6000000 := by
    simp [Finset.sum_range_succ, Nat.factorial]
    norm_num
  have habs : |(-(1/100):ℝ)| = 1/100 := by
    rw [abs_neg, abs_of_nonneg (by norm_num : (0:ℝ) ≤ 1/100)]
  rw [hsum, habs] at h
  norm_num [Nat.factorial] at h
  have h2 := abs_le.mp h
  constructor <;> nlinarith [h2.1, h2.2]

theorem I_bounds :
    (0.24742006 : ℝ) ≤ (∫ t in (0:ℝ)..(1/4), gauss t) ∧
    (∫ t in (0:ℝ)..(1/4), gauss t) ≤ 0.24742007 := by
  have hg : IntervalIntegrable gauss volume 0 (1/4) := gauss_integrable.intervalIntegrable
  have hlow : IntervalIntegrable (fun t : ℝ => 1 - t^2/2 + t^4/8 - t^6/48 - 5*t^8/1536)
      volume 0 (1/4) :=
    (by continuity :
      Continuous (fun t : ℝ => 1 - t^2/2 + t^4/8 - t^6/48 - 5*t^8/1536)).intervalIntegrable 0 (1/4)
  have hup : IntervalIntegrable (fun t : ℝ => 1 - t^2/2 + t^4/8 - t^6/48 + 5*t^8/1536)
      volume 0 (1/4) :=
    (by continuity :
      Continuous (fun t : ℝ => 1 - t^2/2 + t^4/8 - t^6/48 + 5*t^8/1536)).intervalIntegrable 0 (1/4)
  have h1 : ∀ x ∈ Icc (0:ℝ) (1/4), (1 - x^2/2 + x^4/8 - x^6/48 - 5*x^8/1536) ≤ gauss x := by
    intro x hx
    have habs : |x| ≤ 1 := abs_le.mpr ⟨by linarith [hx.1], by linarith [hx.2]⟩
    have hb := abs_le.mp (gauss_taylor_bound x habs)
    linarith [hb.1]
  have h2 : ∀ x ∈ Icc (0:ℝ) (1/4), gauss x ≤ (1 - x^2/2 + x^4/8 - x^6/48 + 5*x^8/1536) := by
    intro x hx
    have habs : |x| ≤ 1 := abs_le.mpr ⟨by linarith [hx.1], by linarith [hx.2]⟩
    have hb := abs_le.mp (gauss_taylor_bound x habs)
    linarith [hb.2]
  constructor
  · have hm := intervalIntegral.integral_mono_on (by norm_num : (0:ℝ) ≤ 1/4) hlow hg h1
    rw [integral_poly_low] at hm
    linarith
  · have hm := intervalIntegral.integral_mono_on (by norm_num : (0:ℝ) ≤ 1/4) hg hup h2
    rw [integral_poly_up] at hm
    linarith

theorem spec_d1_scenario : spec_d1 100 0.5 100 1 = 1/4 := by
  unfold spec_d1
  rw [div_self (by norm_num : (100:ℝ) ≠ 0), Real.log_one, Real.sqrt_one]
  norm_num

theorem spec_d2_scenario : spec_d2 100 0.5 100 1 = -(1/4) := by
  rw [spec_d2, spec_d1_scenario, Real.sqrt_one]
  norm_num

theorem normCdf_quarter :
    normCdf (1/4) = 1/2 + (∫ t in (0:ℝ)..(1/4), gauss t) / Real.sqrt (2 * Real.pi) := by
  have hS := sqrt_two_pi_pos
  have h0 : (∫ t in Iic (0:ℝ), gauss t) = Real.sqrt (2 * Real.pi) / 2 := by
    have hz := normCdf_zero
    rw [normCdf_eq_integral, div_eq_iff hS.ne'] at hz
    linarith
  have hsub : (∫ t in Iic (1/4 : ℝ), gauss t) - (∫ t in Iic (0:ℝ), gauss t) =
      ∫ t in (0:ℝ)..(1/4), gauss t :=
    intervalIntegral.integral_Iic_sub_Iic gauss_integrable.integrableOn
      gauss_integrable.integrableOn
  rw [normCdf_eq_integral,
    show (∫ t in Iic (1/4:ℝ), gauss t) =
      Real.sqrt (2 * Real.pi) / 2 + ∫ t in (0:ℝ)..(1/4), gauss t by
        rw [← hsub, h0]; ring]
  field_simp

theorem spec_call_price_scenario_bounds :
    |spec_call_price 100 0.5 0.01 100 1 - 19.544836| ≤ 0.0001 := by
  have hI := I_bounds
  have hS1 := sqrt_two_pi_lower
  have hS2 := sqrt_two_pi_upper
  have hE := exp_neg_hundredth_bounds
  have hSpos := sqrt_two_pi_pos
  have hkey : spec_call_price 100 0.5 0.01 100 1 =
      Real.exp (-(1/100)) *
        (200 * ((∫ t in (0:ℝ)..(1/4), gauss t) / Real.sqrt (2 * Real.pi))) := by
    unfold spec_call_price
    rw [spec_d1_scenario, spec_d2_scenario, normCdf_neg_eq, normCdf_quarter,
      show (-(0.01:ℝ) * 1) = -(1/100) by norm_num]
    ring
  rw [hkey]
  have hu1 : (0.24742006:ℝ)/2.5066283 ≤
      (∫ t in (0:ℝ)..(1/4), gauss t) / Real.sqrt (2 * Real.pi) :=
    div_le_div₀ (le_trans (by norm_num) hI.1) hI.1 hSpos hS2
  have hu2 : (∫ t in (0:ℝ)..(1/4), gauss t) / Real.sqrt (2 * Real.pi) ≤
      (0.24742007:ℝ)/2.5066282 :=
    div_le_div₀ (by norm_num) hI.2 (by norm_num) hS1
  have hp_low : (0.99004983:ℝ) * (200 * (0.24742006/2.5066283)) ≤
      Real.exp (-(1/100)) *
        (200 * ((∫ t in (0:ℝ)..(1/4), gauss t) / Real.sqrt (2 * Real.pi))) :=
    mul_le_mul hE.1 (by linarith [hu1]) (by norm_num) (le_trans (by norm_num) hE.1)
  have hp_up : Real.exp (-(1/100)) *
      (200 * ((∫ t in (0:ℝ)..(1/4), gauss t) / Real.sqrt (2 * Real.pi))) ≤
      (0.99004984:ℝ) * (200 * (0.24742007/2.5066282)) :=
    mul_le_mul hE.2 (by linarith [hu2]) (by linarith [hu1]) (by norm_num)
  have hlo : (19.544736:ℝ) ≤ 0.99004983 * (200 * (0.24742006/2.5066283)) := by norm_num
  have hhi : (0.99004984:ℝ) * (200 * (0.24742007/2.5066282)) ≤ 19.544936 := by norm_num
  rw [abs_le]
  constructor <;> [linarith [hp_low, hlo]; linarith [hp_up, hhi]]

theorem spec_call_delta_scenario_bounds :
    |spec_call_delta 100 0.5 0.01 100 1 - 0.59273| ≤ 0.0001 := by
  have hI := I_bounds
  have hS1 := sqrt_two_pi_lower
  have hS2 := sqrt_two_pi_upper
  have hE := exp_neg_hundredth_bounds
  have hSpos := sqrt_two_pi_pos
  have hkey : spec_call_delta 100 0.5 0.01 100 1 =
      Real.exp (-(1/100)) *
        (1/2 + (∫ t in (0:ℝ)..(1/4), gauss t) / Real.sqrt (2 * Real.pi)) := by
    unfold spec_call_delta
    rw [spec_d1_scenario, normCdf_quarter,
      show (-(0.01:ℝ) * 1) = -(1/100) by norm_num]
  rw [hkey]
  have hu1 : (0.24742006:ℝ)/2.5066283 ≤
      (∫ t in (0:ℝ)..(1/4), gauss t) / Real.sqrt (2 * Real.pi) :=
    div_le_div₀ (le_trans (by norm_num) hI.1) hI.1 hSpos hS2
  have hu2 : (∫ t in (0:ℝ)..(1/4), gauss t) / Real.sqrt (2 * Real.pi) ≤
      (0.24742007:ℝ)/2.5066282 :=
    div_le_div₀ (by norm_num) hI.2 (by norm_num) hS1
  have hd_low : (0.99004983:ℝ) * (1/2 + 0.24742006/2.5066283) ≤
      Real.exp (-(1/100)) *
        (1/2 + (∫ t in (0:ℝ)..(1/4), gauss t) / Real.sqrt (2 * Real.pi)) :=
    mul_le_mul hE.1 (by linarith [hu1]) (by norm_num) (le_trans (by norm_num) hE.1)
  have hd_up : Real.exp (-(1/100)) *
      (1/2 + (∫ t in (0:ℝ)..(1/4), gauss t) / Real.sqrt (2 * Real.pi)) ≤
      (0.99004984:ℝ) * (1/2 + 0.24742007/2.5066282) :=
    mul_le_mul hE.2 (by linarith [hu2]) (by linarith [hu1]) (by norm_num)
  have hlo : (0.59263:ℝ) ≤ 0.99004983 * (1/2 + 0.24742006/2.5066283) := by norm_num
  have hhi : (0.99004984:ℝ) * (1/2 + 0.24742007/2.5066282) ≤ 0.59283 := by norm_num
  rw [abs_le]
  constructor <;> [linarith [hd_low, hlo]; linarith [hd_up, hhi]]

/-- C9: in the concrete scenario of the `__main__` block (strike 100,
volatility 0.5, expiry 2022-11-01 12:00, rate 0.01, call, futures price 100,
valuation 2021-11-01 12:00) the computed maturity is exactly one year,
`get_price` is within 1e-4 of 19.544836, and `get_delta` is within 1e-4 of
0.59273. -/
theorem black76_scenario :
    ∃ self, EuropeanOptionOnFuture.init 100 expiryEx 0.5 0.01 "c" = .ok self ∧
      self._calc_maturity valuationEx = 1 ∧
      (∃ p, self.get_price 100 valuationEx = .ok p ∧ |p - 19.544836| ≤ 0.0001) ∧
      (∃ d, self.get_delta 100 valuationEx = .ok d ∧ |d - 0.59273| ≤ 0.0001) := by
  refine ⟨⟨100, expiryEx, 0.5, 0.01, "c"⟩, by simp [EuropeanOptionOnFuture.init],
    maturity_ex 100 0.5 0.01 "c", ?_, ?_⟩
  · have hp := get_price_call_eq ⟨100, expiryEx, 0.5, 0.01, "c"⟩ 100 valuationEx rfl
      (by norm_num) (by norm_num)
      (by rw [maturity_ex]; norm_num)
      (by rw [maturity_ex, Real.sqrt_one]; norm_num)
    rw [maturity_ex] at hp
    exact ⟨_, hp, spec_call_price_scenario_bounds⟩
  · have hd := get_delta_call_eq ⟨100, expiryEx, 0.5, 0.01, "c"⟩ 100 valuationEx rfl
      (by norm_num) (by norm_num)
      (by rw [maturity_ex]; norm_num)
      (by rw [maturity_ex, Real.sqrt_one]; norm_num)
    rw [maturity_ex] at hd
    exact ⟨_, hd, spec_call_delta_scenario_bounds⟩

end Black76
